import Mathlib

/-
Verification of the oreb rectangle renderer.

The geometry pipeline of examples/rects.rs and the Painter of src/lib.rs are
embedded shallowly.  The source computes over f32; the embedding uses exact
rationals.  Since the sine and cosine of a rational angle are not rational,
the functions that call f32 sin and cos take those trigonometric functions as
explicit oracle parameters (sinf, cosf : Q -> Q); every theorem quantifies
over the oracle, and concrete instances pick oracles realising the angles in
question (e.g. sin 0 = 0, cos 0 = 1).
-/

/-- GPU-facing vertex record, from oreb::Vertex: a 3D position and a 2D uv. -/
structure Vertex where
  xyz : ℚ × ℚ × ℚ
  uv : ℚ × ℚ
deriving DecidableEq, Repr

/-- Rectangle descriptor, from the Rect struct of examples/rects.rs. -/
structure Rect where
  center : ℚ × ℚ
  size : ℚ × ℚ
  orientation_radians : ℚ
deriving DecidableEq, Repr

/-- Per-rectangle encoder, from mk_vertices in examples/rects.rs: builds the
three local vertices (positions and uvs), then offsets each position by
(half_w/2, half_h/2), rotates it about the origin by the rectangle's
orientation (whose sine and cosine are supplied by the oracles) and
translates it to the center.  Division is exact rational division (the f32
non-finite outcomes of division by zero are modelled separately). -/
def mk_vertices (sinf cosf : ℚ → ℚ) (rect : Rect) : List Vertex :=
  let cx := rect.center.1
  let cy := rect.center.2
  let half_w := (1/2 : ℚ) * rect.size.1
  let half_h := (1/2 : ℚ) * rect.size.2
  let side := half_h + half_w
  let s := sinf rect.orientation_radians
  let c := cosf rect.orientation_radians
  ([ ⟨(-half_w, -half_h, 0), (-(1/2), -(1/2))⟩,
     ⟨(2 * half_h - half_w, -half_h, 0), (-(1/2) + side / half_h, -(1/2))⟩,
     ⟨(-half_w, 2 * half_w - half_h, 0), (-(1/2), -(1/2) + side / half_w)⟩ ] :
    List Vertex).map
    (fun v =>
      let x0 := v.xyz.1 + half_w * (1/2)
      let y0 := v.xyz.2.1 + half_h * (1/2)
      let x := x0 * c - y0 * s
      let y := x0 * s + y0 * c
      ⟨(x + cx, y + cy, v.xyz.2.2), v.uv⟩)

/-- Stream encoder, from encode_geometry in examples/rects.rs: concatenates
the per-rectangle vertices in input order and pairs them with the flat index
list 0, 1, ..., 3n-1. -/
def encode_geometry (sinf cosf : ℚ → ℚ) (rects : List Rect) :
    List Vertex × List ℕ :=
  ((rects.map (mk_vertices sinf cosf)).flatten, List.range (3 * rects.length))

/-- Shape generator, from make_rects in examples/rects.rs.  The f32 constant
PI and the cosine used for the vertical oscillation are oracle parameters. -/
def make_rects (cosf : ℚ → ℚ) (pi t x0 x1 y0 y1 : ℚ) : List Rect :=
  let steps : ℕ := 100
  let dx := (x1 - x0) / ((steps : ℚ) + 1)
  let dy := y1 - y0
  let sz := max dx (1/10)
  (List.range steps).map (fun (i : ℕ) =>
    let is_odd := i % 2 = 1
    let iq : ℚ := (i : ℚ)
    let ph := 2 * pi * iq / ((steps : ℚ) + 1)
    let cx := x0 + dx * (iq + 1/2)
    let cy := y0 + (1/2) * dy * (1 + cosf (ph + 2 * pi * t / 7))
    let w := 3 * sz
    let h := 3 * sz
    let th := (2 * pi * t / 7) * (if is_odd then 1 else -1)
    ⟨(cx, cy), (w, h), th⟩)

/-- Byte size of the Vertex record: repr(C) with fields [f32; 3] and
[f32; 2], so 12 + 8 = 20 bytes, 4-byte aligned, no padding. -/
def vertex_size_bytes : ℕ := 20

/-- Byte size of a u32 index. -/
def index_size_bytes : ℕ := 4

/-- Fixed byte capacity of the pre-allocated vertex buffer
(contents of length 6000 in Painter::new). -/
def VERTEX_BUFFER_CAPACITY : ℕ := 6000

/-- Fixed byte capacity of the pre-allocated index buffer
(contents of length 6000 in Painter::new). -/
def INDEX_BUFFER_CAPACITY : ℕ := 6000

/-- Caller-visible Painter state: the two live counts recording how much of
each fixed buffer holds valid data.  The GPU-resident buffers, pipeline and
bind group are opaque device resources and are not modelled beyond their
fixed capacities. -/
structure Painter where
  vertex_count : ℕ
  index_count : ℕ
deriving DecidableEq, Repr

/-- Initial Painter state after Painter::new: both counts zero. -/
def Painter.new : Painter := ⟨0, 0⟩

/-- A queued write_buffer call: destination offset and byte length. -/
structure BufferWrite where
  offset : ℕ
  bytes : ℕ
deriving DecidableEq, Repr

/-- Painter::set_geometry from src/lib.rs: unconditionally records the new
stream lengths as the live counts and enqueues full-stream writes at offset
0 for both buffers.  The Rust function returns unit: there is no error
channel and no capacity check. -/
def Painter.set_geometry (p : Painter) (vertices : List Vertex)
    (indexes : List ℕ) : Painter × BufferWrite × BufferWrite :=
  let _ := p
  ({ vertex_count := vertices.length, index_count := indexes.length },
   ⟨0, vertex_size_bytes * vertices.length⟩,
   ⟨0, index_size_bytes * indexes.length⟩)

/-- The wgpu surface errors that Painter::draw could in principle surface
through its Result type. -/
inductive SurfaceErr where
  | timeout
  | outdated
  | lost
  | outOfMemory
deriving DecidableEq, Repr

/-- The commands recorded by one Painter::draw call: the clear color of the
render pass, the byte lengths of the bound vertex- and index-buffer slices,
and the (exclusive) end of the indexed draw range 0..index_range_end. -/
structure DrawCommands where
  clear : ℚ × ℚ × ℚ × ℚ
  vertex_slice_bytes : ℕ
  index_slice_bytes : ℕ
  index_range_end : ℕ
deriving DecidableEq, Repr

/-- Painter::draw from src/lib.rs: records a render pass clearing to the
given color, binds the vertex buffer sliced to size_of(Vertex)*vertex_count
bytes and the index buffer sliced to 4*index_count bytes, issues one indexed
draw over 0..index_count, submits, and always returns Ok. -/
def Painter.draw (p : Painter) (clear_color : ℚ × ℚ × ℚ × ℚ) :
    Except SurfaceErr DrawCommands :=
  .ok
    { clear := clear_color
      vertex_slice_bytes := vertex_size_bytes * p.vertex_count
      index_slice_bytes := index_size_bytes * p.index_count
      index_range_end := p.index_count }

/-- Trigonometric oracle that is constantly zero (realises sin at angle 0). -/
def qzero : ℚ → ℚ := fun _ => 0

/-- Trigonometric oracle that is constantly one (realises cos at angle 0). -/
def qone : ℚ → ℚ := fun _ => 1

/-- Identity oracle (an odd function, realising sin at an angle whose sine
matches its radian value in the instance at hand). -/
def qid : ℚ → ℚ := fun x => x

/-- The rectangle with center (0,0), half extents (1,1) (size (2,2)) and
rotation 0. -/
def rect_unit : Rect := ⟨(0, 0), (2, 2), 0⟩

/-- The rectangle with center (0,0), half extents (1,1) and rotation angle
1 radian (the oracle instances choose what its sine and cosine are). -/
def rect_rot1 : Rect := ⟨(0, 0), (2, 2), 1⟩

/-- Follows the words of the specification for the per-rectangle encoding:
local positions (-hw,-hh), (2hh-hw,-hh), (-hw,2hw-hh) with uvs (-0.5,-0.5),
(-0.5+side/hh,-0.5), (-0.5,-0.5+side/hw) where side = hw+hh; each position
offset by (hw/2, hh/2), rotated about the origin by the standard 2D rotation
whose sine and cosine are s and c, translated by (cx, cy); uvs unchanged.
For comparison with mk_vertices. -/
def spec_encode_rect (s c cx cy hw hh : ℚ) : List Vertex :=
  let side := hw + hh
  ([ ((-hw, -hh), (-(1/2), -(1/2))),
     ((2 * hh - hw, -hh), (-(1/2) + side / hh, -(1/2))),
     ((-hw, 2 * hw - hh), (-(1/2), -(1/2) + side / hw)) ] :
    List ((ℚ × ℚ) × (ℚ × ℚ))).map
    (fun pu =>
      let px := pu.1.1 + hw / 2
      let py := pu.1.2 + hh / 2
      ⟨(px * c - py * s + cx, px * s + py * c + cy, 0), pu.2⟩)

/-- C1: for every rectangle, mk_vertices emits exactly the three vertices
described by the specification: local positions (-hw,-hh), (2hh-hw,-hh),
(-hw,2hw-hh) and uvs (-0.5,-0.5), (-0.5+side/hh,-0.5), (-0.5,-0.5+side/hw)
with side = hw+hh, each position offset by (hw/2,hh/2), rotated by the
rectangle's orientation about the origin with the standard 2D rotation, and
translated to the center, the uvs untouched by the transforms. -/
theorem mk_vertices_matches_spec (sinf cosf : ℚ → ℚ) (r : Rect) :
    mk_vertices sinf cosf r =
      spec_encode_rect (sinf r.orientation_radians) (cosf r.orientation_radians)
        r.center.1 r.center.2 ((1/2 : ℚ) * r.size.1) ((1/2 : ℚ) * r.size.2) := by
  obtain ⟨⟨cx, cy⟩, ⟨w, h⟩, th⟩ := r
  simp only [mk_vertices, spec_encode_rect, List.map_cons, List.map_nil,
    List.cons.injEq, Vertex.mk.injEq, Prod.mk.injEq, and_true, List.nil_eq]
  repeat' apply And.intro
  all_goals first | rfl | trivial | ring1

/-- Each rectangle contributes exactly three vertices. -/
theorem mk_vertices_length (sinf cosf : ℚ → ℚ) (r : Rect) :
    (mk_vertices sinf cosf r).length = 3 := rfl

/-- The vertex stream of encode_geometry has three vertices per input
rectangle. -/
theorem encode_geometry_vertex_length (sinf cosf : ℚ → ℚ) (rects : List Rect) :
    (encode_geometry sinf cosf rects).1.length = 3 * rects.length := by
  induction rects with
  | nil => rfl
  | cons r rs ih =>
    simp only [encode_geometry, List.map_cons, List.flatten_cons,
      List.length_append, List.length_cons] at ih ⊢
    rw [mk_vertices_length, ih]
    ring

/-- C2: for every list of n rectangles, encode_geometry produces exactly 3n
vertices and 3n indices, the index list is exactly 0,1,...,3n-1, its length
is divisible by three, and every index is below the vertex count. -/
theorem encode_geometry_invariants (sinf cosf : ℚ → ℚ) (rects : List Rect) :
    (encode_geometry sinf cosf rects).1.length = 3 * rects.length
    ∧ (encode_geometry sinf cosf rects).2.length = 3 * rects.length
    ∧ (encode_geometry sinf cosf rects).2 = List.range (3 * rects.length)
    ∧ (encode_geometry sinf cosf rects).2.length % 3 = 0
    ∧ ∀ i ∈ (encode_geometry sinf cosf rects).2,
        i < (encode_geometry sinf cosf rects).1.length := by
  refine ⟨encode_geometry_vertex_length sinf cosf rects, ?_, rfl, ?_, ?_⟩
  · simp [encode_geometry]
  · simp [encode_geometry]
  · intro i hi
    rw [encode_geometry_vertex_length]
    simpa [encode_geometry] using hi

/-- Witness for C2 at a concrete input: index 0 of the encoding of one
rectangle is below the vertex count. -/
theorem encode_geometry_invariants_witness :
    (0 : ℕ) < (encode_geometry qzero qone [rect_unit]).1.length :=
  (encode_geometry_invariants qzero qone [rect_unit]).2.2.2.2 0 (by decide)

/-- C9: encode_geometry is order-preserving and compositional: the first
three vertices of the two-rectangle encoding are the one-rectangle encoding
of the first rectangle and the next three those of the second; encoding a
concatenation concatenates the vertex streams; and the index stream of any
input is the flat list 0,...,3n-1. -/
theorem encode_geometry_order (sinf cosf : ℚ → ℚ) :
    (∀ r1 r2 : Rect,
      (encode_geometry sinf cosf [r1, r2]).1.take 3 =
          (encode_geometry sinf cosf [r1]).1
        ∧ (encode_geometry sinf cosf [r1, r2]).1.drop 3 =
          (encode_geometry sinf cosf [r2]).1)
    ∧ (∀ rs1 rs2 : List Rect,
        (encode_geometry sinf cosf (rs1 ++ rs2)).1 =
          (encode_geometry sinf cosf rs1).1 ++ (encode_geometry sinf cosf rs2).1)
    ∧ (∀ rs : List Rect,
        (encode_geometry sinf cosf rs).2 = List.range (3 * rs.length)) := by
  refine ⟨fun r1 r2 => ⟨?_, ?_⟩, fun rs1 rs2 => ?_, fun rs => rfl⟩
  · have h3 : (mk_vertices sinf cosf r1).length = 3 := mk_vertices_length ..
    simp [encode_geometry, List.take_append_eq_append_take, h3]
  · have h3 : (mk_vertices sinf cosf r1).length = 3 := mk_vertices_length ..
    simp [encode_geometry, List.drop_append_eq_append_drop, h3]
  · simp [encode_geometry]

/-- C10: Painter::draw returns Ok in every Painter state and for every clear
color; the error branch of its Result type is unreachable. -/
theorem draw_always_ok (p : Painter) (clear_color : ℚ × ℚ × ℚ × ℚ) :
    ∃ cmds : DrawCommands, Painter.draw p clear_color = .ok cmds :=
  ⟨_, rfl⟩

/-- C5: every draw binds the vertex buffer sliced to exactly
size_of(Vertex) * vertex_count bytes and the index buffer to exactly
4 * index_count bytes, clears to the given color, and issues one indexed
draw covering 0..index_count; in the Empty state the draw succeeds and the
covered index range is empty. -/
theorem draw_slices_and_range (p : Painter) (clear_color : ℚ × ℚ × ℚ × ℚ) :
    Painter.draw p clear_color =
      .ok { clear := clear_color
            vertex_slice_bytes := vertex_size_bytes * p.vertex_count
            index_slice_bytes := index_size_bytes * p.index_count
            index_range_end := p.index_count }
    ∧ Painter.draw Painter.new clear_color =
      .ok { clear := clear_color
            vertex_slice_bytes := 0
            index_slice_bytes := 0
            index_range_end := 0 } :=
  ⟨rfl, rfl⟩

/-- C4 counterexample: for the rectangle with center (0,0), rotation 0
(sine 0, cosine 1) and half extents (1,1), the centroid of the (x,y)
components of the three encoded vertices is exactly (1/6, 1/6), which is not
(0,0) (and 1/6 is far beyond floating-point tolerance). -/
theorem encode_centroid_cex :
    ((encode_geometry qzero qone [rect_unit]).1.map (fun v => v.xyz.1)).sum / 3
        = 1/6
    ∧ ((encode_geometry qzero qone [rect_unit]).1.map
          (fun v => v.xyz.2.1)).sum / 3 = 1/6
    ∧ ((1 : ℚ)/6) ≠ 0 := by
  refine ⟨?_, ?_, by norm_num⟩ <;> · norm_num [encode_geometry, mk_vertices, rect_unit, qzero, qone]

/-- C4 amended: for every center (cx, cy), the rectangle at that center with
rotation 0 and half extents (1,1) encodes to three vertices whose (x,y)
centroid is (cx + 1/6, cy + 1/6); at the origin the centroid is (1/6, 1/6),
not (0,0). -/
theorem encode_centroid_offset (cx cy : ℚ) :
    ((encode_geometry qzero qone [⟨(cx, cy), (2, 2), 0⟩]).1.map
        (fun v => v.xyz.1)).sum / 3 = cx + 1/6
    ∧ ((encode_geometry qzero qone [⟨(cx, cy), (2, 2), 0⟩]).1.map
        (fun v => v.xyz.2.1)).sum / 3 = cy + 1/6 := by
  constructor <;>
    · simp only [encode_geometry, mk_vertices, qzero, qone, List.map_cons,
        List.map_nil, List.flatten_cons, List.flatten_nil, List.append_nil,
        List.sum_cons, List.sum_nil]
      ring

/-- C7 counterexample: with bounds x0 = 0, x1 = 101 the first generated
rectangle has center x-coordinate 1/2 (the cell width is (x1-x0)/101), while
the claimed formula x0 + (i+1/2)(x1-x0)/100 gives 101/200 for i = 0. -/
theorem make_rects_cell_width_cex :
    ((make_rects qone 0 0 0 101 0 0).map (fun r => r.center.1))[0]? = some (1/2)
    ∧ ((1 : ℚ)/2) ≠ 0 + ((0 : ℚ) + 1/2) * ((101 - 0) / 100) := by
  constructor
  · simp only [make_rects, List.map_map, List.getElem?_map, List.getElem?_range]
    norm_num [qone]
  · norm_num

/-- C7 amended: make_rects always returns exactly 100 rectangles, and the
horizontal center of rectangle i is x0 + ((x1-x0)/101)(i + 1/2): the span is
divided by steps + 1 = 101, not by 100, and the position advances linearly
across cells of that width. -/
theorem make_rects_cells (cosf : ℚ → ℚ) (pi t x0 x1 y0 y1 : ℚ) :
    (make_rects cosf pi t x0 x1 y0 y1).length = 100
    ∧ (make_rects cosf pi t x0 x1 y0 y1).map (fun r => r.center.1)
      = (List.range 100).map
          (fun (i : ℕ) => x0 + ((x1 - x0) / 101) * ((i : ℚ) + 1/2)) := by
  constructor
  · rw [make_rects, List.length_map, List.length_range]
  · simp only [make_rects, List.map_map]
    refine List.map_congr_left fun i _ => ?_
    norm_num

/-- Finite-result model of one f32 division with exact operands: an f32
division returns a finite value exactly when the divisor is nonzero (with a
zero divisor the f32 result is an infinity, or NaN when the dividend is also
zero — never a finite, well-defined number). -/
def f32_div_finite (a b : ℚ) : Option ℚ :=
  if b = 0 then none else some (a / b)

/-- The two uv divisions performed by mk_vertices, side/half_h and
side/half_w, under the finite-result f32 division model: some (u, v) when
both are finite, none when either is an infinity or NaN. -/
def mk_vertices_uv_divs (rect : Rect) : Option (ℚ × ℚ) :=
  let half_w := (1/2 : ℚ) * rect.size.1
  let half_h := (1/2 : ℚ) * rect.size.2
  let side := half_h + half_w
  (f32_div_finite side half_h).bind fun u =>
    (f32_div_finite side half_w).map fun v => (u, v)

/-- C6 counterexample: for the zero-extent rectangle, the uv divisions
side/half_h and side/half_w are 0/0, which is NaN in f32 — the uv attributes
are not finite, well-defined values, contrary to the claim. -/
theorem zero_extent_uv_cex :
    mk_vertices_uv_divs ⟨(0, 0), (0, 0), 0⟩ = none := by
  norm_num [mk_vertices_uv_divs, f32_div_finite]

/-- C6 amended: encoding a zero-extent rectangle is total and the three
vertex positions all coincide with the rectangle's center, a degenerate
zero-area triangle, for every center, orientation and trig oracle — but the
uv divisions divide by zero, so the uv attributes are not finite in f32. -/
theorem zero_extent_degenerate (sinf cosf : ℚ → ℚ) (cx cy th : ℚ) :
    (mk_vertices sinf cosf ⟨(cx, cy), (0, 0), th⟩).map (fun v => v.xyz)
      = [(cx, cy, 0), (cx, cy, 0), (cx, cy, 0)] := by
  simp only [mk_vertices, List.map_cons, List.map_nil, List.cons.injEq,
    Prod.mk.injEq, List.nil_eq, and_true]
  norm_num

/-- Capacity error for the upload operation, as described by the spec. -/
inductive UploadError where
  | capacityExceeded
deriving DecidableEq, Repr

/-- Follows the words of the specification for upload_geometry: fails with a
capacity-exceeded error when the byte size of either stream exceeds the
corresponding buffer's fixed capacity (leaving the live counts untouched),
and otherwise records the stream lengths as the new live counts.  For
comparison with Painter.set_geometry. -/
def spec_upload_geometry (p : Painter) (vertices : List Vertex)
    (indexes : List ℕ) : Except UploadError Painter :=
  let _ := p
  if vertex_size_bytes * vertices.length > VERTEX_BUFFER_CAPACITY
      ∨ index_size_bytes * indexes.length > INDEX_BUFFER_CAPACITY then
    .error .capacityExceeded
  else
    .ok { vertex_count := vertices.length, index_count := indexes.length }

/-- A vertex stream of 301 vertices: 301 * 20 = 6020 bytes, exceeding the
6000-byte vertex buffer capacity. -/
def oversize_vertices : List Vertex :=
  List.replicate 301 ⟨(0, 0, 0), (0, 0)⟩

/-- C3 counterexample: on a vertex stream of 6020 bytes (over the 6000-byte
capacity) the spec-described upload fails with a capacity error, but
Painter::set_geometry — whose Rust return type is unit, with no error
channel — still records vertex_count = 301 and still enqueues the full
6020-byte write: no capacity-exceeded error reaches the caller and the
counts are overwritten. -/
theorem set_geometry_capacity_cex :
    spec_upload_geometry Painter.new oversize_vertices [] =
        .error .capacityExceeded
    ∧ (Painter.new.set_geometry oversize_vertices []).1.vertex_count = 301
    ∧ (Painter.new.set_geometry oversize_vertices []).2.1.bytes = 6020
    ∧ VERTEX_BUFFER_CAPACITY < 6020 := by
  have hlen : oversize_vertices.length = 301 := by
    rw [oversize_vertices, List.length_replicate]
  refine ⟨?_, ?_, ?_, by norm_num [VERTEX_BUFFER_CAPACITY]⟩
  · rw [spec_upload_geometry]
    rw [hlen]
    norm_num [vertex_size_bytes, VERTEX_BUFFER_CAPACITY]
  · rw [Painter.set_geometry, hlen]
  · rw [Painter.set_geometry, hlen]
    norm_num [vertex_size_bytes]

/-- C3 amended: Painter::set_geometry performs no capacity check and reports
no error: for every prior state and every input it unconditionally records
the stream lengths as the new counts and enqueues full-stream writes at
offset 0 (overflow is never silently truncated or grown — it surfaces only
as a graphics-API validation failure outside the function's result); on
within-capacity streams it agrees with the spec-described upload. -/
theorem set_geometry_unchecked (p : Painter) (vertices : List Vertex)
    (indexes : List ℕ) :
    (p.set_geometry vertices indexes).1.vertex_count = vertices.length
    ∧ (p.set_geometry vertices indexes).1.index_count = indexes.length
    ∧ (p.set_geometry vertices indexes).2.1 =
        ⟨0, vertex_size_bytes * vertices.length⟩
    ∧ (p.set_geometry vertices indexes).2.2 =
        ⟨0, index_size_bytes * indexes.length⟩
    ∧ (vertex_size_bytes * vertices.length ≤ VERTEX_BUFFER_CAPACITY →
        index_size_bytes * indexes.length ≤ INDEX_BUFFER_CAPACITY →
        spec_upload_geometry p vertices indexes =
          .ok (p.set_geometry vertices indexes).1) := by
  refine ⟨rfl, rfl, rfl, rfl, fun hv hi => ?_⟩
  simp [spec_upload_geometry, Painter.set_geometry, not_lt.mpr hv,
    not_lt.mpr hi]

/-- Witness for C3 amended at a concrete input: the empty streams are within
capacity and the spec-described upload agrees with set_geometry on them. -/
theorem set_geometry_unchecked_witness :
    vertex_size_bytes * ([] : List Vertex).length ≤ VERTEX_BUFFER_CAPACITY
    ∧ index_size_bytes * ([] : List ℕ).length ≤ INDEX_BUFFER_CAPACITY
    ∧ spec_upload_geometry Painter.new [] [] =
        .ok (Painter.new.set_geometry [] []).1 :=
  ⟨by decide, by decide,
    (set_geometry_unchecked Painter.new [] []).2.2.2.2 (by decide) (by decide)⟩

/-- Reflection of a position across the horizontal axis through height cy:
x and z unchanged, y reflected about cy. -/
def mirror_about_y (cy : ℚ) (p : ℚ × ℚ × ℚ) : ℚ × ℚ × ℚ :=
  (p.1, 2 * cy - p.2.1, p.2.2)

/-- The rectangle identical to r but with the rotation angle negated. -/
def negate_rotation (r : Rect) : Rect :=
  { r with orientation_radians := -r.orientation_radians }

/-- C8 counterexample: for the rectangle with center (0,0), half extents
(1,1) and rotation angle 1 (realised by the odd sine oracle qid and the even
cosine oracle qzero, so sine 1 and cosine 0, a quarter turn), the position
multiset produced with the negated rotation is not the reflection across the
horizontal axis through the center of the position multiset produced with
the original rotation: the vertex sets are not mirror images. -/
theorem mirror_sets_cex :
    ¬ ((((mk_vertices qid qzero (negate_rotation rect_rot1)).map
            (fun v => v.xyz)) : Multiset (ℚ × ℚ × ℚ))
        = (((mk_vertices qid qzero rect_rot1).map
            (fun v => mirror_about_y rect_rot1.center.2 v.xyz)) :
              Multiset (ℚ × ℚ × ℚ))) := by
  intro h
  have hmem : ((-1/2 : ℚ), (1/2 : ℚ), (0 : ℚ)) ∈
      (((mk_vertices qid qzero (negate_rotation rect_rot1)).map
          (fun v => v.xyz)) : Multiset (ℚ × ℚ × ℚ)) := by
    simp only [mk_vertices, negate_rotation, rect_rot1, qid, qzero,
      List.map_cons, List.map_nil, Multiset.mem_coe, List.mem_cons,
      Prod.mk.injEq]
    norm_num
  rw [h] at hmem
  simp only [mk_vertices, rect_rot1, qid, qzero, mirror_about_y,
    List.map_cons, List.map_nil, Multiset.mem_coe, List.mem_cons,
    List.not_mem_nil, or_false, Prod.mk.injEq] at hmem
  norm_num at hmem

/-- The reflected-local encoding: the three local vertex positions of the
encoder, offset by (hw/2, hh/2), then reflected through the horizontal axis
(y negated), then rotated about the origin by the rectangle's orientation
and translated to the center.  Reference shape for the amended C8. -/
def flip_local_encode (sinf cosf : ℚ → ℚ) (r : Rect) : List (ℚ × ℚ × ℚ) :=
  let cx := r.center.1
  let cy := r.center.2
  let hw := (1/2 : ℚ) * r.size.1
  let hh := (1/2 : ℚ) * r.size.2
  let s := sinf r.orientation_radians
  let c := cosf r.orientation_radians
  ([(-hw, -hh), (2 * hh - hw, -hh), (-hw, 2 * hw - hh)] : List (ℚ × ℚ)).map
    (fun p =>
      let px := p.1 + hw * (1/2)
      let py := -(p.2 + hh * (1/2))
      (px * c - py * s + cx, px * s + py * c + cy, 0))

/-- C8 amended: for any rectangle and any trig oracle that is odd in sine
and even in cosine at the rectangle's angle, reflecting the negated-rotation
encoding across the horizontal axis through the center yields exactly the
original-rotation encoding of the vertically reflected local triangle — the
theta and minus-theta vertex sets are related through this local reflection,
not as mirror images of each other. -/
theorem mirror_flip_identity (sinf cosf : ℚ → ℚ) (r : Rect)
    (hodd : sinf (-r.orientation_radians) = -(sinf r.orientation_radians))
    (heven : cosf (-r.orientation_radians) = cosf r.orientation_radians) :
    (mk_vertices sinf cosf (negate_rotation r)).map
        (fun v => mirror_about_y r.center.2 v.xyz)
      = flip_local_encode sinf cosf r := by
  obtain ⟨⟨cx, cy⟩, ⟨w, h⟩, th⟩ := r
  simp only [negate_rotation] at hodd heven ⊢
  simp only [mk_vertices, flip_local_encode, mirror_about_y, List.map_cons,
    List.map_nil, List.cons.injEq, Prod.mk.injEq, List.nil_eq, and_true]
  rw [hodd, heven]
  repeat' apply And.intro
  all_goals first | rfl | trivial | ring1

/-- Witness for C8 amended at a concrete input: the oracle pair qid, qzero
is odd in sine and even in cosine at angle 1, and the reflection identity
holds for the unit rectangle rotated by that angle. -/
theorem mirror_flip_identity_witness :
    qid (-rect_rot1.orientation_radians) = -(qid rect_rot1.orientation_radians)
    ∧ qzero (-rect_rot1.orientation_radians) = qzero rect_rot1.orientation_radians
    ∧ (mk_vertices qid qzero (negate_rotation rect_rot1)).map
        (fun v => mirror_about_y rect_rot1.center.2 v.xyz)
      = flip_local_encode qid qzero rect_rot1 :=
  ⟨rfl, rfl, mirror_flip_identity qid qzero rect_rot1 rfl rfl⟩
